import Mathlib

/-!
# Verification of the dex-bot shared coordination layer

A shallow embedding, in Lean 4, of the two core components of the
`itripleg/dex-bot` repository:

* `shared/token_manager.py` — the `SharedTokenManager` single-flight token
  cache coordinator (namespace `TokenManager` below), and
* `bot/webhook.py` — the `OptimizedWebhookManager` resilient notification
  dispatcher (namespace `Webhook` below).

Modelling conventions:

* Python `datetime`/`time.time()` instants are `Nat` seconds in the token
  manager and `ℚ` seconds in the webhook manager (the webhook code multiplies
  intervals by the non-integer factors 1.2 and 0.8).
* The blockchain data source (`factory_contract.functions.getAllTokens()`
  together with the per-address `getTokenState`/`name`/`symbol` reads) is an
  explicit input of type `FetchResult`; a per-address exception is a `none`
  entry and an exception out of `getAllTokens` itself is `FetchResult.failure`.
* All methods of both classes run under the object's lock (`data_lock`,
  `batch_lock`); since `threading.Event.wait` is only ever awaited while
  holding `data_lock`, and the event can only be set by a thread that itself
  needs `data_lock`, a blocked waiter always times out with the event value it
  observed at entry.  Concurrent executions therefore serialize, and a batch
  of concurrent calls is modelled as a sequence of atomic calls
  (`TokenManager.runCalls`).
* Mutating methods become state-passing functions; functions additionally
  return observation instrumentation (the number of underlying factory
  fetches performed, the log of HTTP posts issued, the number of batch flush
  operations) used only to state the claims.
* The HTTP transport is an explicit input: `responses` lists the outcome the
  endpoint would give to the i-th post of a delivery attempt.
* Logging, the `BotLogger` import, and the purely printed statistics
  (`print_stats`, `get_session_summary`) are omitted; the balance callback and
  the floating-point session metrics derived from it
  (`_calculate_session_metrics`) are abstracted as an input dictionary, and
  `random.choice` over the personality phrase table as an input index.
-/

namespace TokenManager

/-- A Python dict with string keys and string values, as returned by
`TokenInfo.to_dict` (ordered association list). -/
abbrev Snap := List (String × String)

/-- `TokenInfo` dataclass from `shared/token_manager.py`. -/
structure TokenInfo where
  address : String
  name : String
  symbol : String
  state : Int
  last_updated : String
deriving DecidableEq, Repr

/-- `TokenInfo.to_dict`: the backwards-compatibility dictionary with exactly
the keys `address`, `name`, `symbol`. -/
def TokenInfo.to_dict (t : TokenInfo) : Snap :=
  [("address", t.address), ("name", t.name), ("symbol", t.symbol)]

/-- The snapshot `[token.to_dict() for token in self.tradeable_tokens]`
returned by `get_tokens_for_bot`. -/
def snapshot (l : List TokenInfo) : List Snap := l.map TokenInfo.to_dict

/-- Insert-or-update on a Python dict modelled as an ordered association
list: assignment `d[k] = v` replaces the value in place when the key exists
and appends otherwise. -/
def dictInsert (m : List (String × TokenInfo)) (k : String) (v : TokenInfo) :
    List (String × TokenInfo) :=
  if m.any (fun p => p.1 == k) then
    m.map (fun p => if p.1 == k then (k, v) else p)
  else m ++ [(k, v)]

/-- The mutable state of the `SharedTokenManager` singleton.  Statistics
fields are flattened out of the `self.stats` dict; the `registered_bots` dict
keeps only its insertion-ordered key list (the stored `registered_at`/`logger`
values are never read by any decision).  The write-only `is_refreshing` flag
of `__init__` is omitted.  Field defaults are the `__init__` values
(`refresh_interval = timedelta(minutes=30)` = 1800 seconds). -/
structure ManagerState where
  tokens : List (String × TokenInfo) := []
  tradeable_tokens : List TokenInfo := []
  last_refresh : Option Nat := none
  refresh_interval : Nat := 1800
  refresh_in_progress : Bool := false
  current_factory_address : Option String := none
  factory_contract : Option String := none
  coordinator_bot : Option String := none
  tokens_loaded : Bool := false
  loading_event : Bool := false
  registered_bots : List String := []
  total_refreshes : Nat := 0
  bots_served : Nat := 0
  cache_hits : Nat := 0
  factory_queries_saved : Nat := 0
  factory_address_changes : Nat := 0
  coordinated_loads : Nat := 0
deriving DecidableEq, Repr

/-- `SharedTokenManager.register_bot`.  The factory contract argument is
identified by its address (`factory_contract.address`). -/
def register_bot (s : ManagerState) (bot_name : String) (factory_address : String) :
    ManagerState :=
  let s1 :=
    if s.current_factory_address = none then
      { s with current_factory_address := some factory_address }
    else if s.current_factory_address ≠ some factory_address then
      { s with tokens := [], tradeable_tokens := [], last_refresh := none,
               tokens_loaded := false, loading_event := false,
               current_factory_address := some factory_address,
               coordinator_bot := none,
               factory_address_changes := s.factory_address_changes + 1 }
    else s
  let s2 := { s1 with registered_bots := (
    if bot_name ∈ s1.registered_bots then s1.registered_bots
    else s1.registered_bots ++ [bot_name]) }
  let s3 :=
    if s2.factory_contract = none then { s2 with factory_contract := some factory_address }
    else s2
  let s4 :=
    if s3.coordinator_bot = none then { s3 with coordinator_bot := some bot_name }
    else s3
  { s4 with bots_served := s4.bots_served + 1 }

/-- `SharedTokenManager.unregister_bot`. -/
def unregister_bot (s : ManagerState) (bot_name : String) : ManagerState :=
  if bot_name ∈ s.registered_bots then
    let remaining := s.registered_bots.erase bot_name
    let coord :=
      if s.coordinator_bot = some bot_name ∧ remaining ≠ [] then remaining.head?
      else if remaining = [] then none
      else s.coordinator_bot
    { s with registered_bots := remaining, coordinator_bot := coord }
  else s

/-- `SharedTokenManager.needs_refresh`: `True` when nothing was ever
refreshed, else when the cache age exceeds `refresh_interval`. -/
def needs_refresh (s : ManagerState) (now : Nat) : Bool :=
  match s.last_refresh with
  | none => true
  | some lr => now - lr > s.refresh_interval

/-- One address enumerated by `factory.getAllTokens()`: `result` holds the
`(state, name, symbol)` read for that address, or `none` when one of the
per-address contract calls raised (the address is then skipped). -/
structure TokenFetch where
  address : String
  result : Option (Int × String × String)
deriving DecidableEq, Repr

/-- Outcome of the underlying blockchain read performed by
`_refresh_tokens`: either the whole enumeration raised, or it produced a list
of per-address outcomes. -/
inductive FetchResult where
  | failure
  | success (entries : List TokenFetch)
deriving DecidableEq, Repr

/-- Loop body of `_refresh_tokens`: accumulate one fetched address into the
`(new_tokens, new_tradeable)` pair being built.  Tokens in state 1 (TRADING)
or 4 (RESUMED) are also appended to the tradeable list. -/
def refreshStep (now : Nat) (acc : List (String × TokenInfo) × List TokenInfo)
    (e : TokenFetch) : List (String × TokenInfo) × List TokenInfo :=
  match e.result with
  | none => acc
  | some (st, nm, sy) =>
      let ti : TokenInfo :=
        { address := e.address, name := nm, symbol := sy, state := st,
          last_updated := toString now }
      let tokens := dictInsert acc.1 e.address.toLower ti
      let tradeable := if st = 1 ∨ st = 4 then acc.2 ++ [ti] else acc.2
      (tokens, tradeable)

/-- `SharedTokenManager._refresh_tokens`.  Returns the new state and the
number of `getAllTokens` factory enumerations issued (0 when no factory
contract is available, 1 otherwise — also when the enumeration raised).
On any exception the `except` clause only logs: `tokens`,
`tradeable_tokens` and `last_refresh` keep their previous values. -/
def refresh_tokens (s : ManagerState) (now : Nat) (fetch : FetchResult) :
    ManagerState × Nat :=
  if s.factory_contract = none then (s, 0)
  else
    match fetch with
    | .failure => (s, 1)
    | .success entries =>
        let r := entries.foldl (refreshStep now) ([], [])
        ({ s with tokens := r.1, tradeable_tokens := r.2,
                  last_refresh := some now,
                  total_refreshes := s.total_refreshes + 1 }, 1)

/-- `SharedTokenManager.get_tokens_for_bot`.  Returns the snapshot given to
the bot, the post-call state, and the number of factory enumerations issued
during the call.

The `loading_event.wait(timeout=60)` of a non-coordinator is modelled by the
event's value at entry: the waiter holds `data_lock` for the whole call, and
`loading_event.set()` only ever runs under that same lock, so a clear event
can never become set during the wait — the waiter times out and falls back to
an independent `_refresh_tokens`. -/
def get_tokens_for_bot (s : ManagerState) (bot_name : String) (force_refresh : Bool)
    (now : Nat) (fetch : FetchResult) : List Snap × ManagerState × Nat :=
  if s.tokens_loaded && !force_refresh && !needs_refresh s now then
    let s' := { s with cache_hits := s.cache_hits + 1,
                       factory_queries_saved := s.factory_queries_saved + 1 }
    (snapshot s'.tradeable_tokens, s', 0)
  else
    let is_coordinator := some bot_name = s.coordinator_bot
    if is_coordinator ∧ s.refresh_in_progress = false then
      let s1 := { s with refresh_in_progress := true, loading_event := false }
      let r := refresh_tokens s1 now fetch
      let s2 := { r.1 with tokens_loaded := true,
                           coordinated_loads := r.1.coordinated_loads + 1,
                           refresh_in_progress := false, loading_event := true }
      (snapshot s2.tradeable_tokens, s2, r.2)
    else if ¬ is_coordinator then
      if s.loading_event then
        let s' := { s with factory_queries_saved := s.factory_queries_saved + 1 }
        (snapshot s'.tradeable_tokens, s', 0)
      else
        let r := refresh_tokens s now fetch
        let s2 := { r.1 with tokens_loaded := true }
        (snapshot s2.tradeable_tokens, s2, r.2)
    else
      (snapshot s.tradeable_tokens, s, 0)

/-- `SharedTokenManager.force_refresh`: clear the freshness markers so the
next `get_tokens_for_bot` reloads. -/
def force_refresh (s : ManagerState) : ManagerState :=
  { s with last_refresh := none, tokens_loaded := false, loading_event := false }

/-- `SharedTokenManager.cleanup`: forget registrations and the loaded flag
(note: `last_refresh`, `tokens` and `tradeable_tokens` are not cleared). -/
def cleanup (s : ManagerState) : ManagerState :=
  { s with registered_bots := [], coordinator_bot := none,
           tokens_loaded := false, loading_event := false }

/-- A serialized batch of `get_tokens_for_bot` calls issued at the same
instant with `force_refresh=False` (all calls contend on `data_lock`, so a
concurrent batch executes as some sequence of atomic calls).  Returns the
snapshot each caller received, the final state, and the total number of
factory enumerations. -/
def runCalls (now : Nat) (fetch : FetchResult) :
    ManagerState → List String → List (List Snap) × ManagerState × Nat
  | s, [] => ([], s, 0)
  | s, b :: rest =>
      let c := get_tokens_for_bot s b false now fetch
      let r := runCalls now fetch c.2.1 rest
      (c.1 :: r.1, r.2.1, c.2.2 + r.2.2)

/-- The public operations of the coordinator, for stating state invariants. -/
inductive Op where
  | reg (bot : String) (factory : String)
  | unreg (bot : String)
  | getTokens (bot : String) (force : Bool) (now : Nat) (fetch : FetchResult)
  | forceRefresh
  | cleanupOp
deriving Repr

/-- Apply one public operation to the coordinator state. -/
def step (s : ManagerState) : Op → ManagerState
  | .reg b f => register_bot s b f
  | .unreg b => unregister_bot s b
  | .getTokens b f now fetch => (get_tokens_for_bot s b f now fetch).2.1
  | .forceRefresh => force_refresh s
  | .cleanupOp => cleanup s

/-- A token is tradeable when its state is 1 (TRADING) or 4 (RESUMED). -/
def isTradeable (t : TokenInfo) : Bool := t.state == 1 || t.state == 4

/-- The derived-view invariant: `tradeable_tokens` is exactly the tradeable
subset of the `tokens` map's values. -/
def tradeableInv (s : ManagerState) : Prop :=
  s.tradeable_tokens = (s.tokens.map Prod.snd).filter isTradeable

/-- The lowercased addresses a successful fetch would store as `tokens` keys. -/
def fetchKeys (entries : List TokenFetch) : List String :=
  (entries.filter (fun e => e.result.isSome)).map (fun e => e.address.toLower)

/-- Well-formedness of an operation's data-source input: the enumeration
contains no two successfully-read addresses that collide after lowercasing. -/
def opWellFormed : Op → Prop
  | .getTokens _ _ _ (.success entries) => (fetchKeys entries).Nodup
  | _ => True

/-- The cache-freshness predicate: tokens are loaded and not yet stale. -/
def fresh (s : ManagerState) (now : Nat) : Prop :=
  s.tokens_loaded = true ∧ needs_refresh s now = false

end TokenManager

namespace Webhook

/-- Outcome of one `requests.post` to the webhook endpoint, following the
exception arms of `_send_webhook_request`. -/
inductive HttpOutcome where
  | status (code : Nat)
  | timeout
  | connError
  | reqError
  | otherError
deriving DecidableEq, Repr

/-- The outcome the endpoint gives to the i-th post of a delivery attempt. -/
def getOutcome (responses : List HttpOutcome) (i : Nat) : HttpOutcome :=
  responses.getD i .connError

/-- `OptimizedWebhookManager._send_webhook_request`: issue the post and map
the outcome to a boolean — `True` exactly on HTTP 200, every other status
code and every raised exception give `False`.  The second component is the
number of posts issued: the method contains no loop, so it is always 1. -/
def send_webhook_request (responses : List HttpOutcome) : Bool × Nat :=
  match getOutcome responses 0 with
  | .status code => (code == 200, 1)
  | _ => (false, 1)

/-- Modelled from the spec: the delivery policy claim C5 ascribes to the
dispatcher — "up to 3 tries; success only on HTTP 200; non-200 HTTP responses
are not retried; timeouts and connection errors are retried up to the 3-try
limit".  Defined only to be compared against `send_webhook_request`; no such
loop exists in `bot/webhook.py`. -/
def claimedTry (o : HttpOutcome) : Option Bool :=
  match o with
  | .status code => some (code == 200)
  | .timeout => none
  | .connError => none
  | .reqError => some false
  | .otherError => some false

/-- Modelled from the spec (claim C5's words): retry logic with 3 tries where
`timeout`/`connError` are the retryable outcomes. -/
def claimedDelivery (responses : List HttpOutcome) : Bool × Nat :=
  match claimedTry (getOutcome responses 0) with
  | some b => (b, 1)
  | none =>
      match claimedTry (getOutcome responses 1) with
      | some b => (b, 2)
      | none =>
          match claimedTry (getOutcome responses 2) with
          | some b => (b, 3)
          | none => (false, 3)

/-- A JSON-ish value stored in a `details` dict. -/
inductive DVal where
  | str (s : String)
  | num (n : Int)
  | rat (q : ℚ)
  | boolV (b : Bool)
  | strList (l : List String)
deriving DecidableEq, Repr

/-- A Python `details` dict: ordered association list. -/
abbrev Details := List (String × DVal)

/-- Dict assignment `d[k] = v`: update in place or append. -/
def dset (d : Details) (k : String) (v : DVal) : Details :=
  if d.any (fun p => p.1 == k) then
    d.map (fun p => if p.1 == k then (k, v) else p)
  else d ++ [(k, v)]

/-- Dict lookup `d.get(k)`. -/
def dget (d : Details) (k : String) : Option DVal :=
  (d.find? (fun p => p.1 == k)).map (fun p => p.2)

/-- Dict membership `k in d`. -/
def dhas (d : Details) (k : String) : Bool := d.any (fun p => p.1 == k)

/-- Dict merge `d.update(upd)`. -/
def dmerge (d : Details) (upd : Details) : Details :=
  upd.foldl (fun acc p => dset acc p.1 p.2) d

/-- One entry of the `pending_updates` batch buffer (`_queue_update`). -/
structure Update where
  action : String
  details : Details
  timestamp : ℚ
  priority : Nat
deriving DecidableEq, Repr, Inhabited

/-- The JSON body built by `_send_webhook_direct`. -/
structure Payload where
  botName : String
  displayName : String
  avatarUrl : String
  bio : Option String
  walletAddress : Option String
  action : String
  details : Details
  botSecret : String
deriving DecidableEq, Repr, Inhabited

/-- Mutable state of one `OptimizedWebhookManager`.  The `webhook_stats` dict
is flattened (its write-only `last_sent`/`last_error` entries are omitted);
`http_log` and `flush_count` are observation instrumentation recording the
posts issued and the `_flush_batch` operations that actually flushed.
Defaults are the `__init__` values. -/
structure Manager where
  bot_name : String := "bot"
  display_name : String := "Bot"
  avatar_url : String := ""
  webhook_url : String := "http://example.invalid/webhook"
  bot_secret : String := "dev"
  bio : Option String := none
  wallet_address : Option String := none
  phrases : List (String × List String) := []
  enabled : Bool := true
  session_start_time : Option String := none
  last_heartbeat_sent : ℚ := 0
  heartbeat_interval : ℚ := 120
  adaptive_heartbeat_interval : ℚ := 120
  max_heartbeat_interval : ℚ := 300
  min_heartbeat_interval : ℚ := 60
  consecutive_heartbeat_failures : Nat := 0
  last_significant_activity : ℚ := 0
  pending_updates : List Update := []
  batch_timer : Bool := false
  batch_timeout : ℚ := 5
  max_batch_size : Nat := 5
  max_consecutive_failures : Nat := 3
  failure_backoff_time : ℚ := 30
  last_failure_time : ℚ := 0
  total_sent : Nat := 0
  successful : Nat := 0
  failed : Nat := 0
  consecutive_failures : Nat := 0
  heartbeats_sent : Nat := 0
  heartbeats_successful : Nat := 0
  requests_saved : Nat := 0
  http_log : List Payload := []
  flush_count : Nat := 0
deriving Repr

/-- The `priority_actions` set of `__init__` (significant activity). -/
def priority_actions : List String :=
  ["buy", "sell", "create_token", "error", "startup", "shutdown", "insufficient_funds"]

/-- The `personality_actions` set of `__init__`. -/
def personality_actions : List String :=
  ["buy", "sell", "create_token", "hold", "error"]

/-- The literal set `{'startup','shutdown','error','insufficient_funds'}`
used in `_queue_update` and `send_update` to dispatch immediately. -/
def immediate_actions : List String :=
  ["startup", "shutdown", "error", "insufficient_funds"]

/-- The literal set `{'startup','shutdown','error'}` that `send_update`
exempts from the failure backoff. -/
def backoff_exempt_actions : List String :=
  ["startup", "shutdown", "error"]

/-- `_get_action_priority`. -/
def get_action_priority (action : String) : Nat :=
  if action == "error" then 10
  else if action == "insufficient_funds" then 10
  else if action == "startup" then 9
  else if action == "shutdown" then 9
  else if action == "buy" then 8
  else if action == "sell" then 8
  else if action == "create_token" then 7
  else if action == "hold" then 5
  else if action == "balance_alert" then 4
  else if action == "heartbeat" then 2
  else 3

/-- `_should_skip_webhook`: returns the decision and the state, because the
check resets `consecutive_failures` to 0 once the backoff window elapsed. -/
def should_skip_webhook (st : Manager) (now : ℚ) : Bool × Manager :=
  if st.consecutive_failures ≥ st.max_consecutive_failures then
    if now - st.last_failure_time < st.failure_backoff_time then (true, st)
    else (false, { st with consecutive_failures := 0 })
  else (false, st)

/-- `_update_stats`. -/
def update_stats (st : Manager) (success : Bool) (now : ℚ) : Manager :=
  let st1 := { st with total_sent := st.total_sent + 1 }
  if success then
    { st1 with successful := st1.successful + 1, consecutive_failures := 0 }
  else
    { st1 with failed := st1.failed + 1,
               consecutive_failures := st1.consecutive_failures + 1,
               last_failure_time := now }

/-- `_send_webhook_direct`: build the payload, issue exactly one post via
`_send_webhook_request`, and record the result in the statistics. -/
def send_webhook_direct (st : Manager) (action : String) (details : Details)
    (responses : List HttpOutcome) (now : ℚ) : Bool × Manager :=
  let details :=
    if action == "startup" && st.bio.isSome then
      dset details "bio" (DVal.str (st.bio.getD ""))
    else details
  let payload : Payload :=
    { botName := st.bot_name, displayName := st.display_name,
      avatarUrl := st.avatar_url, bio := st.bio,
      walletAddress := st.wallet_address, action := action,
      details := details, botSecret := st.bot_secret }
  let success := (send_webhook_request responses).1
  let st1 := { st with http_log := st.http_log ++ [payload] }
  (success, update_stats st1 success now)

/-- Stable insertion of an update into a list already sorted by descending
priority: the new element goes before the first strictly-lower-priority
element and after every earlier element of greater or equal priority. -/
def insertByPriority (u : Update) : List Update → List Update
  | [] => [u]
  | v :: rest =>
      if v.priority ≤ u.priority then u :: v :: rest
      else v :: insertByPriority u rest

/-- `self.pending_updates.sort(key=lambda x: x["priority"], reverse=True)`:
Python's `list.sort` is a stable sort; model it as a stable insertion sort by
descending priority. -/
def sortByPriority : List Update → List Update
  | [] => []
  | u :: rest => insertByPriority u (sortByPriority rest)

/-- The primary payload's details after `_flush_batch` summarizes the
non-primary updates into it (`batchedUpdates`, `otherActions`, and
`additionalActions` when more than 3 were batched). -/
def summarize (primary : Update) (others : List Update) : Details :=
  if others.isEmpty then primary.details
  else
    let d1 := dset primary.details "batchedUpdates" (DVal.num others.length)
    let d2 := dset d1 "otherActions" (DVal.strList ((others.take 3).map (fun u => u.action)))
    if others.length > 3 then
      dset d2 "additionalActions" (DVal.num ((others.length : Int) - 3))
    else d2

/-- `_flush_batch`: sort pending updates by descending priority, send the
single highest-priority one with the rest summarized inside it, then clear
the buffer and the batch timer. -/
def flush_batch (st : Manager) (now : ℚ) (responses : List HttpOutcome) : Manager :=
  if st.pending_updates.isEmpty then st
  else
    let sorted := sortByPriority st.pending_updates
    let primary := sorted.headD default
    let others := sorted.tail
    let pd := summarize primary others
    let st1 :=
      if others.isEmpty then st
      else { st with requests_saved := st.requests_saved + others.length }
    let st2 := (send_webhook_direct st1 primary.action pd responses now).2
    { st2 with pending_updates := [], batch_timer := false,
               flush_count := st2.flush_count + 1 }

/-- `_queue_update`: append to the buffer, mark significant activity for
priority actions, then flush immediately for the immediate actions or when
the buffer reached `max_batch_size`, else arm the batch timer. -/
def queue_update (st : Manager) (action : String) (details : Details)
    (now : ℚ) (responses : List HttpOutcome) : Manager :=
  let upd : Update :=
    { action := action, details := details, timestamp := now,
      priority := get_action_priority action }
  let st1 := { st with pending_updates := st.pending_updates ++ [upd] }
  let st2 :=
    if priority_actions.contains action then
      { st1 with last_significant_activity := now }
    else st1
  if immediate_actions.contains action then flush_batch st2 now responses
  else if st2.pending_updates.length ≥ st2.max_batch_size then flush_batch st2 now responses
  else if st2.batch_timer = false then { st2 with batch_timer := true }
  else st2

/-- The batch-timeout timer firing (`flush_timer` in `_set_batch_timer`): a
woken timer thread flushes only if the timer field is still armed. -/
def batch_timer_fire (st : Manager) (now : ℚ) (responses : List HttpOutcome) : Manager :=
  if st.batch_timer then flush_batch { st with batch_timer := false } now responses
  else st

/-- The fallback messages of `send_update` when no phrase list exists. -/
def fallback_message (action : String) : String :=
  if action == "hold" then "Staying put with this position for now."
  else if action == "buy" then "Making a purchase!"
  else if action == "sell" then "Time to take some profits!"
  else if action == "create_token" then "Creating something new!"
  else if action == "error" then "Encountered a minor hiccup."
  else "Performed " ++ action

/-- `send_update`.  `session_metrics` abstracts the dictionary produced by
`_calculate_session_metrics` (derived from the balance callback) and
`rand_idx` the index `random.choice` picks in the phrase list. -/
def send_update (st : Manager) (action : String) (details : Details)
    (session_metrics : Details) (rand_idx : Nat) (now : ℚ)
    (responses : List HttpOutcome) : Bool × Manager :=
  if st.enabled = false then (false, st)
  else
    let skip := should_skip_webhook st now
    if skip.1 && !backoff_exempt_actions.contains action then
      (false, { skip.2 with requests_saved := skip.2.requests_saved + 1 })
    else
      let details :=
        if personality_actions.contains action && !dhas details "message" then
          let plist := ((st.phrases.find? (fun p => p.1 == action)).map (fun p => p.2)).getD []
          if plist.isEmpty then
            dset details "message" (DVal.str (fallback_message action))
          else
            dset details "message" (DVal.str (plist.getD (rand_idx % plist.length) ""))
        else details
      let details := dmerge details session_metrics
      let details :=
        match st.session_start_time with
        | some t => dset details "sessionStartTime" (DVal.str t)
        | none => details
      let details :=
        match st.wallet_address with
        | some w => dset (dset details "walletAddress" (DVal.str w)) "address" (DVal.str w)
        | none => details
      if immediate_actions.contains action then
        send_webhook_direct skip.2 action details responses now
      else
        (true, queue_update skip.2 action details now responses)

/-- `_send_scheduled_heartbeat`: skip under the failure backoff, otherwise
send a heartbeat post; on success reset the heartbeat failure counter and
(after 10 minutes of inactivity) extend the adaptive interval by 1.2× up to
the maximum; on failure shrink it by 0.8× down to the minimum. -/
def send_scheduled_heartbeat (st : Manager) (now : ℚ) (session_metrics : Details)
    (responses : List HttpOutcome) : Manager :=
  let skip := should_skip_webhook st now
  if skip.1 then { skip.2 with requests_saved := skip.2.requests_saved + 1 }
  else
    let st1 := skip.2
    let details : Details :=
      [("message", DVal.str (st1.display_name ++ " heartbeat")),
       ("status", DVal.str "active"),
       ("automaticHeartbeat", DVal.boolV true),
       ("intervalUsed", DVal.rat st1.adaptive_heartbeat_interval),
       ("timeSinceActivity", DVal.rat (now - st1.last_significant_activity))]
    let details := dmerge details session_metrics
    let details :=
      match st1.wallet_address with
      | some w => dset details "walletAddress" (DVal.str w)
      | none => details
    let sent := send_webhook_direct st1 "heartbeat" details responses now
    let st2 := sent.2
    let st3 :=
      if sent.1 then
        let st' := { st2 with last_heartbeat_sent := now,
                              consecutive_heartbeat_failures := 0,
                              heartbeats_successful := st2.heartbeats_successful + 1 }
        if now - st'.last_significant_activity > 600 then
          { st' with adaptive_heartbeat_interval := (
              min (st'.adaptive_heartbeat_interval * (12/10)) st'.max_heartbeat_interval) }
        else st'
      else
        { st2 with consecutive_heartbeat_failures := st2.consecutive_heartbeat_failures + 1,
                   adaptive_heartbeat_interval := (
                     max (st2.adaptive_heartbeat_interval * (8/10)) st2.min_heartbeat_interval) }
    { st3 with heartbeats_sent := st3.heartbeats_sent + 1 }

/-- One 10-second wake-up of the `heartbeat_worker` loop: recompute the
adaptive interval from the time since the last significant activity
(< 5 min → minimum, < 15 min → base, else maximum), then send a scheduled
heartbeat when the elapsed time since the last heartbeat reaches it. -/
def scheduler_tick (st : Manager) (now : ℚ) (session_metrics : Details)
    (responses : List HttpOutcome) : Manager :=
  let time_since_activity := now - st.last_significant_activity
  let interval :=
    if time_since_activity < 300 then st.min_heartbeat_interval
    else if time_since_activity < 900 then st.heartbeat_interval
    else st.max_heartbeat_interval
  let st1 := { st with adaptive_heartbeat_interval := interval }
  if now - st1.last_heartbeat_sent ≥ interval then
    send_scheduled_heartbeat st1 now session_metrics responses
  else st1

/-- The activity-bucketed interval of `heartbeat_worker` (lines 102–107 of
`bot/webhook.py`) at the default configuration (60/120/300 seconds). -/
def bucket_interval (idle : ℚ) : ℚ :=
  if idle < 300 then 60 else if idle < 900 then 120 else 300

/-- The success nudge of `_send_scheduled_heartbeat` (lines 154–159) at the
default configuration: after 10 idle minutes, extend by 1.2× capped at 300. -/
def heartbeat_success_update (idle i : ℚ) : ℚ :=
  if idle > 600 then min (i * (12/10)) 300 else i

/-- The failure nudge of `_send_scheduled_heartbeat` (lines 162–166) at the
default configuration: shrink by 0.8× floored at 60. -/
def heartbeat_failure_update (i : ℚ) : ℚ :=
  max (i * (8/10)) 60

/-- The adaptive interval right after a successful scheduled heartbeat fired
at idle time `idle`: the worker first rebuckets the interval, then the
success nudge applies. -/
def after_successful_heartbeat (idle : ℚ) : ℚ :=
  heartbeat_success_update idle (bucket_interval idle)

/-- The discrete events driving the batching buffer, for replaying an
enqueue/timer scenario. -/
inductive BatchEvent where
  | enqueue (action : String) (details : Details)
  | timerFire
deriving Repr

/-- Replay a sequence of batching events (all at instant `now`, endpoint
behaviour `responses` for every post). -/
def runBatch (now : ℚ) (responses : List HttpOutcome) :
    Manager → List BatchEvent → Manager
  | st, [] => st
  | st, .enqueue a d :: rest =>
      runBatch now responses (queue_update st a d now responses) rest
  | st, .timerFire :: rest =>
      runBatch now responses (batch_timer_fire st now responses) rest

end Webhook

/-!
## Concrete states used by counterexamples and witnesses
-/

namespace TokenManager

/-- A coordinator state after one full coordinated refresh cycle whose cache
has since gone stale: tokens were loaded at instant 0 (`loading_event` was
left set by the coordinator), three bots are registered, and more than
`refresh_interval` seconds have passed. -/
def staleSignalledState : ManagerState :=
  { tokens := [], tradeable_tokens := [], last_refresh := some 0,
    current_factory_address := some "F", factory_contract := some "F",
    coordinator_bot := some "A", tokens_loaded := true, loading_event := true,
    registered_bots := ["A", "B", "C"] }

/-- A coordinator state with a freshly refreshed cache (instant 100), one
registered bot, right before `cleanup` is called. -/
def preCleanupState : ManagerState :=
  { tokens := [], tradeable_tokens := [], last_refresh := some 100,
    current_factory_address := some "F", factory_contract := some "F",
    coordinator_bot := some "A", tokens_loaded := true, loading_event := true,
    registered_bots := ["A"] }

/-- A fetch entry that reads successfully in state 1 (TRADING). -/
def dupEntry : TokenFetch :=
  { address := "0xA", result := some (1, "DupToken", "DUP") }

/-- A freshly registered single-bot coordinator about to perform its first
load. -/
def firstLoadState : ManagerState :=
  { current_factory_address := some "F", factory_contract := some "F",
    coordinator_bot := some "A", registered_bots := ["A"] }

end TokenManager

namespace Webhook

/-- Seven non-critical `hold` events enqueued in quick succession, followed
by the batch-timeout timer firing. -/
def sevenHoldEvents : List BatchEvent :=
  [.enqueue "hold" [], .enqueue "hold" [], .enqueue "hold" [], .enqueue "hold" [],
   .enqueue "hold" [], .enqueue "hold" [], .enqueue "hold" [], .timerFire]

/-- A notifier whose breaker has just tripped: 3 consecutive failures, the
last one at instant 0. -/
def trippedState : Manager :=
  { consecutive_failures := 3, last_failure_time := 0 }

end Webhook

/-!
## Helper lemmas
-/

namespace TokenManager

theorem needs_refresh_of_lt {s : ManagerState} {now lr : Nat}
    (h2 : s.last_refresh = some lr) (h3 : now - lr < s.refresh_interval) :
    needs_refresh s now = false := by
  simp only [needs_refresh, h2, decide_eq_false_iff_not, not_lt, gt_iff_lt]
  exact le_of_lt h3

theorem refresh_tokens_failure (s : ManagerState) (now : Nat) :
    (refresh_tokens s now .failure).1 = s := by
  unfold refresh_tokens
  split <;> rfl

end TokenManager

/-!
## Claim theorems, counterexamples and witnesses
-/

namespace TokenManager

/-- Claim C2 is false on the code: when bot `B` registers with factory `F2`
while the canonical factory is `F1` and the coordinator is the
still-registered bot `A`, `register_bot` resets `coordinator_bot` to `None`
and then hands the role to the new registrant `B` — the existing leader does
not keep it. -/
theorem register_reassigns_leader_counterexample :
    (register_bot (register_bot {} "A" "F1") "B" "F2").coordinator_bot = some "B" ∧
    "A" ∈ (register_bot (register_bot {} "A" "F1") "B" "F2").registered_bots ∧
    (register_bot (register_bot {} "A" "F1") "B" "F2").coordinator_bot ≠ some "A" := by
  decide

/-- Claim C2, amended: registering a bot whose factory address differs from
the current canonical one clears the cached tokens, the tradeable list and
`last_refresh`, and reassigns the coordinator role to the new registrant
(the previous coordinator loses it even while still registered). -/
theorem register_factory_change_reassigns_leader (s : ManagerState) (b f f0 : String)
    (h1 : s.current_factory_address = some f0) (h2 : f0 ≠ f) :
    (register_bot s b f).coordinator_bot = some b ∧
    (register_bot s b f).tokens = [] ∧
    (register_bot s b f).tradeable_tokens = [] ∧
    (register_bot s b f).last_refresh = none := by
  have hne : (some f0 : Option String) ≠ some f := by
    intro hc
    exact h2 (Option.some_injective _ hc)
  unfold register_bot
  rw [h1]
  by_cases hfc : s.factory_contract = none <;> simp [hne, hfc]

/-- Witness for `register_factory_change_reassigns_leader` at a concrete
input: bot `A` registers with `F1`, then bot `B` registers with `F2`. -/
theorem register_factory_change_reassigns_leader_witness :
    (register_bot {} "A" "F1").current_factory_address = some "F1" ∧
    "F1" ≠ "F2" ∧
    (register_bot (register_bot {} "A" "F1") "B" "F2").coordinator_bot = some "B" := by
  refine ⟨by decide, by decide, ?_⟩
  exact (register_factory_change_reassigns_leader (register_bot {} "A" "F1") "B" "F2" "F1"
    (by decide) (by decide)).1

/-- Claim C3 is false on the code: after `cleanup`, the cache is still fresh
(`now - last_refresh = 0 < refresh_interval`) and `force_refresh` is false,
yet `get_tokens_for_bot` performs a factory fetch, because `cleanup` cleared
`tokens_loaded` (and the coordinator) without clearing `last_refresh`. -/
theorem freshness_counterexample :
    needs_refresh (cleanup preCleanupState) 100 = false ∧
    (get_tokens_for_bot (cleanup preCleanupState) "A" false 100 (.success [])).2.2 = 1 := by
  decide

/-- Claim C3, amended: whenever tokens are loaded (`tokens_loaded` set), the
cache is fresh (`now - lastRefresh < refreshInterval`) and `forceRefresh` is
false, `get_tokens_for_bot` performs no fetch and returns the cached
tradeable snapshot unchanged. -/
theorem freshness_when_loaded (s : ManagerState) (b : String) (now lr : Nat)
    (fetch : FetchResult) (h1 : s.tokens_loaded = true) (h2 : s.last_refresh = some lr)
    (h3 : now - lr < s.refresh_interval) :
    (get_tokens_for_bot s b false now fetch).2.2 = 0 ∧
    (get_tokens_for_bot s b false now fetch).1 = snapshot s.tradeable_tokens ∧
    (get_tokens_for_bot s b false now fetch).2.1.tradeable_tokens = s.tradeable_tokens := by
  have hn := needs_refresh_of_lt h2 h3
  unfold get_tokens_for_bot
  simp [h1, hn]

/-- Witness for `freshness_when_loaded`: the pre-cleanup state is fresh at
instant 100 and a `get_tokens_for_bot` call on it performs zero fetches. -/
theorem freshness_when_loaded_witness :
    preCleanupState.tokens_loaded = true ∧
    preCleanupState.last_refresh = some 100 ∧
    100 - 100 < preCleanupState.refresh_interval ∧
    (get_tokens_for_bot preCleanupState "A" false 100 FetchResult.failure).2.2 = 0 := by
  refine ⟨by decide, by decide, by decide, ?_⟩
  exact (freshness_when_loaded preCleanupState "A" 100 100 FetchResult.failure
    (by decide) (by decide) (by decide)).1

/-- Claim C7: a failing underlying fetch leaves `tokens`,
`tradeable_tokens` and `last_refresh` (indeed the whole state) unchanged in
`_refresh_tokens`, and `get_tokens_for_bot` then serves the previous
tradeable snapshot — an empty list when no cache exists yet.  The error is
never propagated: the embedding of `get_tokens_for_bot` is a total function
whose result type carries no error. -/
theorem fetch_failure_preserves_cache :
    (∀ (s : ManagerState) (now : Nat), (refresh_tokens s now .failure).1 = s) ∧
    (∀ (s : ManagerState) (b : String) (force : Bool) (now : Nat),
      (get_tokens_for_bot s b force now .failure).1 = snapshot s.tradeable_tokens) := by
  refine ⟨refresh_tokens_failure, ?_⟩
  intro s b force now
  unfold get_tokens_for_bot
  dsimp only
  split
  · rfl
  · split
    · simp [refresh_tokens_failure]
    · split
      · split
        · rfl
        · simp [refresh_tokens_failure]
      · rfl

/-- Claim C10: every element of a `get_tokens_for_bot` snapshot is built by
`TokenInfo.to_dict`, whose key list is exactly
`["address", "name", "symbol"]` — in particular neither `state` nor
`last_updated` ever appears — and whose value depends only on the `address`,
`name` and `symbol` fields.  In the value-semantics embedding the returned
dicts are freshly constructed from the cached records' string fields, so no
mutation of a returned dict can reach the coordinator's state. -/
theorem snapshot_key_shape :
    (∀ t : TokenInfo, (TokenInfo.to_dict t).map Prod.fst = ["address", "name", "symbol"]) ∧
    (∀ t : TokenInfo, "state" ∉ (TokenInfo.to_dict t).map Prod.fst ∧
      "last_updated" ∉ (TokenInfo.to_dict t).map Prod.fst) ∧
    (∀ (s : ManagerState) (b : String) (force : Bool) (now : Nat) (fetch : FetchResult),
      (get_tokens_for_bot s b force now fetch).1
        = snapshot (get_tokens_for_bot s b force now fetch).2.1.tradeable_tokens) ∧
    (∀ t₁ t₂ : TokenInfo, t₁.address = t₂.address → t₁.name = t₂.name →
      t₁.symbol = t₂.symbol → TokenInfo.to_dict t₁ = TokenInfo.to_dict t₂) := by
  refine ⟨fun t => rfl, fun t => by simp [TokenInfo.to_dict], ?_, ?_⟩
  · intro s b force now fetch
    unfold get_tokens_for_bot
    dsimp only
    split
    · rfl
    · split
      · rfl
      · split
        · split
          · rfl
          · rfl
        · rfl
  · intro t₁ t₂ ha hn hs
    simp [TokenInfo.to_dict, ha, hn, hs]

/-- Witness for `snapshot_key_shape`: two concrete tokens that differ only
in `state` and `last_updated` produce the same dictionary, whose keys are
exactly `address`, `name`, `symbol`. -/
theorem snapshot_key_shape_witness :
    (TokenInfo.to_dict ⟨"0xa", "Tok", "TOK", 1, "t0"⟩).map Prod.fst
      = ["address", "name", "symbol"] ∧
    TokenInfo.to_dict ⟨"0xa", "Tok", "TOK", 1, "t0"⟩
      = TokenInfo.to_dict ⟨"0xa", "Tok", "TOK", 3, "t9"⟩ := by
  exact ⟨snapshot_key_shape.1 _,
    snapshot_key_shape.2.2.2 ⟨"0xa", "Tok", "TOK", 1, "t0"⟩ ⟨"0xa", "Tok", "TOK", 3, "t9"⟩
      rfl rfl rfl⟩

end TokenManager

namespace Webhook

/-- Claim C5 is false on the code: `_send_webhook_request` contains no retry
loop.  On a transport where the first post times out and a second post would
return HTTP 200, the code issues exactly one post and reports failure, while
the claimed retry policy would succeed on the second of its three tries. -/
theorem webhook_no_retry_counterexample :
    send_webhook_request [.timeout, .status 200] = (false, 1) ∧
    claimedDelivery [.timeout, .status 200] = (true, 2) := by
  decide

/-- Claim C5, amended: a delivery attempt makes exactly one try; the try is
successful only on HTTP 200, and nothing — neither a non-200 status nor a
timeout nor a connection error — is ever retried. -/
theorem webhook_single_try (responses : List HttpOutcome) :
    (send_webhook_request responses).2 = 1 ∧
    ((send_webhook_request responses).1 = true ↔ getOutcome responses 0 = .status 200) := by
  unfold send_webhook_request
  split
  · rename_i code heq
    simp [heq]
  · rename_i hne
    refine ⟨rfl, ?_, ?_⟩
    · intro hc
      exact (Bool.false_ne_true hc).elim
    · intro hc
      exact (hne 200 hc).elim

end Webhook

namespace TokenManager

/-- A fresh cache hit: when tokens are loaded and not stale, a
`force_refresh=False` call returns the cached snapshot, bumps the two cache
counters and performs no fetch. -/
theorem get_tokens_hit (s : ManagerState) (b : String) (now : Nat) (fetch : FetchResult)
    (h1 : s.tokens_loaded = true) (h2 : needs_refresh s now = false) :
    get_tokens_for_bot s b false now fetch =
      (snapshot s.tradeable_tokens,
       { s with cache_hits := s.cache_hits + 1,
                factory_queries_saved := s.factory_queries_saved + 1 }, 0) := by
  unfold get_tokens_for_bot
  simp [h1, h2]

/-- Running any batch of calls against a fresh cache performs no fetch,
leaves the tradeable list unchanged and serves everyone the same snapshot. -/
theorem runCalls_fresh (now : Nat) (fetch : FetchResult) (bots : List String)
    (s : ManagerState) (h1 : s.tokens_loaded = true) (h2 : needs_refresh s now = false) :
    (runCalls now fetch s bots).2.2 = 0 ∧
    (runCalls now fetch s bots).2.1.tradeable_tokens = s.tradeable_tokens ∧
    ∀ snap ∈ (runCalls now fetch s bots).1, snap = snapshot s.tradeable_tokens := by
  induction bots generalizing s with
  | nil => simp [runCalls]
  | cons b rest ih =>
      rw [runCalls, get_tokens_hit s b now fetch h1 h2]
      dsimp only
      obtain ⟨ihc, iht, ihs⟩ := ih { s with cache_hits := s.cache_hits + 1, factory_queries_saved := s.factory_queries_saved + 1 } h1 h2
      refine ⟨by simpa using ihc, by simpa using iht, ?_⟩
      intro snap hsnap
      rcases List.mem_cons.mp hsnap with h | h
      · exact h
      · exact ihs snap h

/-- Per-call case analysis of `get_tokens_for_bot` under a successful fetch:
the refresh-in-progress flag stays clear, at most one fetch happens, the
returned snapshot is that of the post-call tradeable list, and either no
fetch happened and the tradeable list is untouched, or the post-call cache
is fresh. -/
theorem get_tokens_call_cases (s : ManagerState) (b : String) (now : Nat)
    (entries : List TokenFetch) (hrip : s.refresh_in_progress = false) :
    ∃ res s' n, get_tokens_for_bot s b false now (.success entries) = (res, s', n) ∧
      s'.refresh_in_progress = false ∧ n ≤ 1 ∧ res = snapshot s'.tradeable_tokens ∧
      ((n = 0 ∧ s'.tradeable_tokens = s.tradeable_tokens) ∨
       (s'.tokens_loaded = true ∧ needs_refresh s' now = false)) := by
  unfold get_tokens_for_bot
  dsimp only
  split
  · exact ⟨_, _, _, rfl, hrip, by simp, rfl, Or.inl ⟨rfl, rfl⟩⟩
  · split
    · by_cases hfc : s.factory_contract = none
      · simp only [refresh_tokens, hfc, if_true]
        exact ⟨_, _, _, rfl, rfl, by simp, rfl, Or.inl ⟨rfl, rfl⟩⟩
      · simp only [refresh_tokens, hfc, if_false]
        refine ⟨_, _, _, rfl, rfl, by simp, rfl, Or.inr ⟨rfl, ?_⟩⟩
        simp [needs_refresh]
    · split
      · split
        · exact ⟨_, _, _, rfl, hrip, by simp, rfl, Or.inl ⟨rfl, rfl⟩⟩
        · by_cases hfc : s.factory_contract = none
          · simp only [refresh_tokens, hfc, if_true]
            exact ⟨_, _, _, rfl, hrip, by simp, rfl, Or.inl ⟨rfl, rfl⟩⟩
          · simp only [refresh_tokens, hfc, if_false]
            refine ⟨_, _, _, rfl, hrip, by simp, rfl, Or.inr ⟨rfl, ?_⟩⟩
            simp [needs_refresh]
      · exact ⟨_, _, _, rfl, hrip, by simp, rfl, Or.inl ⟨rfl, rfl⟩⟩

/-- Claim C1 is false on the code: with a stale cache whose `loading_event`
was left set by an earlier coordinated refresh, two concurrent non-coordinator
`get_tokens_for_bot` calls perform zero underlying fetches — not exactly
one — and are served the stale snapshot. -/
theorem single_flight_counterexample :
    needs_refresh staleSignalledState 2000 = true ∧
    (runCalls 2000 (.success []) staleSignalledState ["B", "C"]).2.2 = 0 ∧
    (runCalls 2000 (.success []) staleSignalledState ["B", "C"]).2.2 ≠ 1 := by
  decide

/-- Claim C1, amended: for any serialized batch of `get_tokens_for_bot`
calls at one instant with a successful fetch function and no refresh already
in flight, the underlying fetch is invoked at most once (possibly zero
times, e.g. when callers are served from the still-signalled loading event),
and every caller receives either the pre-batch snapshot or the final
refreshed snapshot — in particular every caller served at or after the
single fetch receives the identical final snapshot. -/
theorem single_flight_at_most_once (s : ManagerState) (now : Nat) (entries : List TokenFetch)
    (callers : List String) (hrip : s.refresh_in_progress = false) :
    (runCalls now (.success entries) s callers).2.2 ≤ 1 ∧
    ∀ snap ∈ (runCalls now (.success entries) s callers).1,
      snap = snapshot s.tradeable_tokens ∨
      snap = snapshot (runCalls now (.success entries) s callers).2.1.tradeable_tokens := by
  induction callers generalizing s with
  | nil => simp [runCalls]
  | cons b rest ih =>
      obtain ⟨res, s', n, heq, hrip', hle, hsnap, hAB⟩ :=
        get_tokens_call_cases s b now entries hrip
      rw [runCalls, heq]
      dsimp only
      rcases hAB with ⟨hn0, htr⟩ | ⟨hl, hf⟩
      · obtain ⟨ihle, ihsnap⟩ := ih s' hrip'
        subst hn0
        refine ⟨by simpa using ihle, ?_⟩
        intro snap hmem
        rcases List.mem_cons.mp hmem with h | h
        · left
          rw [h, hsnap, htr]
        · rcases ihsnap snap h with h2 | h2
          · left
            rw [h2, htr]
          · right
            exact h2
      · obtain ⟨rc0, rtr, rsnaps⟩ := runCalls_fresh now (.success entries) rest s' hl hf
        refine ⟨by omega, ?_⟩
        intro snap hmem
        rcases List.mem_cons.mp hmem with h | h
        · right
          rw [h, hsnap, rtr]
        · right
          rw [rsnaps snap h, rtr]

/-- Witness for `single_flight_at_most_once` at a concrete input: the stale
signalled three-bot state with callers `B`, `C`. -/
theorem single_flight_at_most_once_witness :
    staleSignalledState.refresh_in_progress = false ∧
    ((runCalls 2000 (.success []) staleSignalledState ["B", "C"]).2.2 ≤ 1 ∧
     ∀ snap ∈ (runCalls 2000 (.success []) staleSignalledState ["B", "C"]).1,
       snap = snapshot staleSignalledState.tradeable_tokens ∨
       snap = snapshot (runCalls 2000 (.success []) staleSignalledState ["B", "C"]).2.1.tradeable_tokens) :=
  ⟨by decide, single_flight_at_most_once staleSignalledState 2000 [] ["B", "C"] (by decide)⟩

end TokenManager

namespace TokenManager

/-- `dict[k] = v` appends when `k` is not already a key. -/
theorem dictInsert_not_mem (m : List (String × TokenInfo)) (k : String) (v : TokenInfo)
    (h : ∀ p ∈ m, p.1 ≠ k) : dictInsert m k v = m ++ [(k, v)] := by
  unfold dictInsert
  rw [if_neg]
  intro hc
  rw [List.any_eq_true] at hc
  obtain ⟨p, hp, he⟩ := hc
  exact h p hp (by simpa using he)

/-- The `_refresh_tokens` loop keeps `new_tradeable` equal to the tradeable
subset of `new_tokens`' values, provided the successfully fetched lowercased
addresses are distinct among themselves and from the keys accumulated so
far. -/
theorem refresh_fold_inv (now : Nat) (entries : List TokenFetch) :
    ∀ (tk : List (String × TokenInfo)) (tr : List TokenInfo),
    (fetchKeys entries).Nodup →
    (∀ k ∈ fetchKeys entries, ∀ p ∈ tk, p.1 ≠ k) →
    tr = (tk.map Prod.snd).filter isTradeable →
    (entries.foldl (refreshStep now) (tk, tr)).2
      = ((entries.foldl (refreshStep now) (tk, tr)).1.map Prod.snd).filter isTradeable := by
  induction entries with
  | nil =>
      intro tk tr _ _ htr
      simpa using htr
  | cons e rest ih =>
      intro tk tr hnd hdisj htr
      rw [List.foldl_cons]
      cases hres : e.result with
      | none =>
          have hstep : refreshStep now (tk, tr) e = (tk, tr) := by
            simp [refreshStep, hres]
          rw [hstep]
          have hk : fetchKeys (e :: rest) = fetchKeys rest := by
            simp [fetchKeys, hres]
          rw [hk] at hnd hdisj
          exact ih tk tr hnd hdisj htr
      | some v =>
          obtain ⟨st, nm, sy⟩ := v
          have hk : fetchKeys (e :: rest) = e.address.toLower :: fetchKeys rest := by
            simp [fetchKeys, hres]
          rw [hk] at hnd hdisj
          have hkey : ∀ p ∈ tk, p.1 ≠ e.address.toLower :=
            hdisj e.address.toLower (List.mem_cons_self _ _)
          have hstep : refreshStep now (tk, tr) e =
              (tk ++ [(e.address.toLower, (⟨e.address, nm, sy, st, toString now⟩ : TokenInfo))],
               if st = 1 ∨ st = 4 then tr ++ [(⟨e.address, nm, sy, st, toString now⟩ : TokenInfo)] else tr) := by
            simp only [refreshStep, hres]
            rw [dictInsert_not_mem tk _ _ hkey]
          rw [hstep]
          have hnd' := (List.nodup_cons.mp hnd).2
          have hhead := (List.nodup_cons.mp hnd).1
          apply ih
          · exact hnd'
          · intro k hkmem p hp
            rcases List.mem_append.mp hp with h1 | h1
            · exact hdisj k (List.mem_cons_of_mem _ hkmem) p h1
            · have hpe := List.mem_singleton.mp h1
              subst hpe
              intro hc
              have hc' : e.address.toLower = k := hc
              subst hc'
              exact hhead hkmem
          · by_cases hst : st = 1 ∨ st = 4
            · have hb : isTradeable (⟨e.address, nm, sy, st, toString now⟩ : TokenInfo) = true := by
                simpa [isTradeable] using hst
              rw [if_pos hst, htr]
              simp [List.filter_append, List.filter_cons, hb]
            · have hb : isTradeable (⟨e.address, nm, sy, st, toString now⟩ : TokenInfo) = false := by
                simp only [isTradeable]
                rw [Bool.or_eq_false_iff]
                constructor
                · rw [beq_eq_false_iff_ne]
                  exact fun h => hst (Or.inl h)
                · rw [beq_eq_false_iff_ne]
                  exact fun h => hst (Or.inr h)
              rw [if_neg hst, htr]
              simp [List.filter_append, List.filter_cons, hb]

/-- `_refresh_tokens` preserves the derived-view invariant when every
successful fetch it could apply has duplicate-free lowercased addresses. -/
theorem refresh_tokens_inv (s : ManagerState) (now : Nat) (fetch : FetchResult)
    (hinv : tradeableInv s)
    (hwf : ∀ entries, fetch = .success entries → (fetchKeys entries).Nodup) :
    tradeableInv (refresh_tokens s now fetch).1 := by
  unfold refresh_tokens
  split
  · exact hinv
  · split
    · exact hinv
    · rename_i entries
      unfold tradeableInv
      dsimp only
      exact refresh_fold_inv now entries [] []
        (hwf entries rfl)
        (fun k _ p hp => absurd hp (List.not_mem_nil p))
        (by simp)

/-- Claim C9 is false on the code as stated for arbitrary fetched data: when
the factory enumeration lists the same address twice (both reads succeeding
in state TRADING), the `tokens` dict deduplicates the key while
`new_tradeable` receives both occurrences, so `tradeable_tokens` is no
longer the tradeable subset of the `tokens` map's values. -/
theorem tradeable_inv_counterexample :
    tradeableInv firstLoadState ∧
    ¬ tradeableInv (step firstLoadState (.getTokens "A" false 0 (.success [dupEntry, dupEntry]))) := by
  constructor
  · rfl
  · simp [step, get_tokens_for_bot, needs_refresh, refresh_tokens, refreshStep, dictInsert,
      tradeableInv, isTradeable, firstLoadState, dupEntry, snapshot]

/-- Claim C9, amended: after every public operation of the coordinator
(register, unregister, get_tokens_for_bot, force_refresh, cleanup), the
tradeable list equals exactly the subset of the tokens map's values whose
state is Trading (1) or Resumed (4) — provided the data source never lists
two addresses that collide after lowercasing within one enumeration. -/
theorem tradeable_inv_preserved (s : ManagerState) (op : Op)
    (hinv : tradeableInv s) (hwf : opWellFormed op) : tradeableInv (step s op) := by
  cases op with
  | reg b f =>
      show tradeableInv (register_bot s b f)
      unfold tradeableInv at hinv ⊢
      unfold register_bot
      by_cases h1 : s.current_factory_address = none <;>
        by_cases h2 : s.current_factory_address ≠ some f <;>
          by_cases h3 : s.factory_contract = none <;>
            by_cases h4 : s.coordinator_bot = none <;>
              simp [h1, h2, h3, h4, hinv]
  | unreg b =>
      show tradeableInv (unregister_bot s b)
      unfold tradeableInv at hinv ⊢
      unfold unregister_bot
      split
      · exact hinv
      · exact hinv
  | getTokens b force now fetch =>
      have hwf' : ∀ entries, fetch = .success entries → (fetchKeys entries).Nodup := by
        intro entries he
        rw [he] at hwf
        exact hwf
      show tradeableInv (get_tokens_for_bot s b force now fetch).2.1
      unfold get_tokens_for_bot
      dsimp only
      split
      · exact hinv
      · split
        · exact refresh_tokens_inv _ now fetch hinv hwf'
        · split
          · split
            · exact hinv
            · exact refresh_tokens_inv _ now fetch hinv hwf'
          · exact hinv
  | forceRefresh => exact hinv
  | cleanupOp => exact hinv

/-- Witness for `tradeable_inv_preserved`: registering a new bot on the
fresh single-bot state preserves the invariant. -/
theorem tradeable_inv_preserved_witness :
    tradeableInv firstLoadState ∧ opWellFormed (Op.reg "X" "F") ∧
    tradeableInv (step firstLoadState (Op.reg "X" "F")) :=
  ⟨rfl, trivial, tradeable_inv_preserved firstLoadState (Op.reg "X" "F") rfl trivial⟩

end TokenManager
namespace Webhook

/-- With the breaker tripped (counter at the threshold, within the backoff
window), `_should_skip_webhook` answers `True` and leaves the state alone. -/
theorem should_skip_webhook_tripped (st : Manager) (now : ℚ)
    (hmax : st.max_consecutive_failures = 3) (hbk : st.failure_backoff_time = 30)
    (hcf : st.consecutive_failures ≥ 3) (hel : now - st.last_failure_time < 30) :
    should_skip_webhook st now = (true, st) := by
  unfold should_skip_webhook
  rw [hmax, hbk, if_pos hcf, if_pos hel]

/-- `_update_stats` issues no post. -/
theorem update_stats_http_log (st : Manager) (success : Bool) (now : ℚ) :
    (update_stats st success now).http_log = st.http_log := by
  unfold update_stats
  dsimp only
  split <;> rfl

/-- `_send_webhook_direct` issues exactly one post. -/
theorem send_webhook_direct_log_length (st : Manager) (action : String) (details : Details)
    (responses : List HttpOutcome) (now : ℚ) :
    (send_webhook_direct st action details responses now).2.http_log.length
      = st.http_log.length + 1 := by
  unfold send_webhook_direct
  dsimp only
  rw [update_stats_http_log]
  simp

/-- `_should_skip_webhook` issues no post. -/
theorem should_skip_webhook_http_log (st : Manager) (now : ℚ) :
    (should_skip_webhook st now).2.http_log = st.http_log := by
  unfold should_skip_webhook
  split
  · split <;> rfl
  · rfl

/-- Claim C6: once `consecutive_failures` has reached the threshold 3 and
less than the 30-second backoff window has passed since the last failure,
every non-critical `send_update` performs zero network posts and returns
`False` (only bumping `requests_saved`); a critical send (`startup`,
`shutdown`, `error`) issues its single post regardless of the breaker state;
and any successful direct delivery resets `consecutive_failures` to zero. -/
theorem circuit_breaker :
    (∀ (st : Manager) (action : String) (details sm : Details) (ri : Nat) (now : ℚ)
       (responses : List HttpOutcome),
       st.enabled = true →
       st.max_consecutive_failures = 3 → st.failure_backoff_time = 30 →
       st.consecutive_failures ≥ 3 → now - st.last_failure_time < 30 →
       action ∉ backoff_exempt_actions →
       send_update st action details sm ri now responses
         = (false, { st with requests_saved := st.requests_saved + 1 })) ∧
    (∀ (st : Manager) (action : String) (details sm : Details) (ri : Nat) (now : ℚ)
       (responses : List HttpOutcome),
       st.enabled = true →
       (action = "startup" ∨ action = "shutdown" ∨ action = "error") →
       (send_update st action details sm ri now responses).2.http_log.length
         = st.http_log.length + 1) ∧
    (∀ (st : Manager) (action : String) (details : Details) (responses : List HttpOutcome)
       (now : ℚ),
       (send_webhook_direct st action details responses now).1 = true →
       (send_webhook_direct st action details responses now).2.consecutive_failures = 0) := by
  refine ⟨?_, ?_, ?_⟩
  · intro st action details sm ri now responses hen hmax hbk hcf hel hex
    unfold send_update
    rw [should_skip_webhook_tripped st now hmax hbk hcf hel]
    simp [hen, hex]
  · intro st action details sm ri now responses hen hcrit
    unfold send_update
    rw [hen]
    dsimp only
    rcases hcrit with h | h | h
    · subst h
      have hmem : ("startup" : String) ∈ backoff_exempt_actions := by decide
      have hmem2 : ("startup" : String) ∈ immediate_actions := by decide
      simp [hen, hmem, hmem2, send_webhook_direct_log_length, should_skip_webhook_http_log]
    · subst h
      have hmem : ("shutdown" : String) ∈ backoff_exempt_actions := by decide
      have hmem2 : ("shutdown" : String) ∈ immediate_actions := by decide
      simp [hen, hmem, hmem2, send_webhook_direct_log_length, should_skip_webhook_http_log]
    · subst h
      have hmem : ("error" : String) ∈ backoff_exempt_actions := by decide
      have hmem2 : ("error" : String) ∈ immediate_actions := by decide
      simp [hen, hmem, hmem2, send_webhook_direct_log_length, should_skip_webhook_http_log]
  · intro st action details responses now h
    unfold send_webhook_direct at h ⊢
    dsimp only at h ⊢
    rw [h]
    unfold update_stats
    dsimp only
    rw [if_pos rfl]

end Webhook

namespace Webhook

/-- Witness for `circuit_breaker` on the tripped notifier at instant 5:
a `hold` is dropped without network activity, while an `error` posts and its
success resets the failure counter. -/
theorem circuit_breaker_witness :
    trippedState.enabled = true ∧ trippedState.max_consecutive_failures = 3 ∧
    trippedState.failure_backoff_time = 30 ∧ trippedState.consecutive_failures ≥ 3 ∧
    (5 : ℚ) - trippedState.last_failure_time < 30 ∧ "hold" ∉ backoff_exempt_actions ∧
    send_update trippedState "hold" [] [] 0 5 [.status 200]
      = (false, { trippedState with requests_saved := trippedState.requests_saved + 1 }) ∧
    (send_webhook_direct trippedState "error" [] [.status 200] 5).1 = true ∧
    (send_webhook_direct trippedState "error" [] [.status 200] 5).2.consecutive_failures = 0 := by
  refine ⟨rfl, rfl, rfl, by decide, by norm_num [trippedState], by decide, ?_, rfl, ?_⟩
  · exact circuit_breaker.1 trippedState "hold" [] [] 0 5 [.status 200] rfl rfl rfl (by decide)
      (by norm_num [trippedState]) (by decide)
  · exact circuit_breaker.2.2 trippedState "error" [] [.status 200] 5 rfl

end Webhook
namespace Webhook

/-- Stable priority insertion permutes. -/
theorem insertByPriority_perm (u : Update) (l : List Update) :
    (insertByPriority u l).Perm (u :: l) := by
  induction l with
  | nil => exact List.Perm.refl _
  | cons v rest ih =>
      unfold insertByPriority
      split
      · exact List.Perm.refl _
      · exact (ih.cons v).trans (List.Perm.swap u v rest)

/-- The stable sort is a permutation of the buffer. -/
theorem sortByPriority_perm (l : List Update) : (sortByPriority l).Perm l := by
  induction l with
  | nil => exact List.Perm.refl _
  | cons u rest ih =>
      show (insertByPriority u (sortByPriority rest)).Perm (u :: rest)
      exact (insertByPriority_perm u (sortByPriority rest)).trans (ih.cons u)

/-- Stable priority insertion preserves descending order. -/
theorem insertByPriority_sorted (u : Update) (l : List Update)
    (h : l.Pairwise (fun a b => b.priority ≤ a.priority)) :
    (insertByPriority u l).Pairwise (fun a b => b.priority ≤ a.priority) := by
  induction l with
  | nil => simp [insertByPriority]
  | cons v rest ih =>
      unfold insertByPriority
      split
      · rename_i hle
        refine List.Pairwise.cons ?_ h
        intro x hx
        rcases List.mem_cons.mp hx with hx2 | hx2
        · subst hx2
          exact hle
        · exact le_trans ((List.pairwise_cons.mp h).1 x hx2) hle
      · rename_i hgt
        refine List.Pairwise.cons ?_ (ih (List.pairwise_cons.mp h).2)
        intro x hx
        have hx' := (insertByPriority_perm u rest).mem_iff.mp hx
        rcases List.mem_cons.mp hx' with hx2 | hx2
        · subst hx2
          exact le_of_lt (not_le.mp hgt)
        · exact (List.pairwise_cons.mp h).1 x hx2

/-- The sorted buffer is in descending priority order. -/
theorem sortByPriority_sorted (l : List Update) :
    (sortByPriority l).Pairwise (fun a b => b.priority ≤ a.priority) := by
  induction l with
  | nil => simp [sortByPriority]
  | cons u rest ih => exact insertByPriority_sorted u _ ih

/-- Looking up the assigned key after an in-place dict update finds the new
value. -/
theorem find?_dset_map_self (d : Details) (k : String) (v : DVal) :
    List.find? (fun p => p.1 == k) (d.map (fun p => if p.1 == k then (k, v) else p))
      = (List.find? (fun p => p.1 == k) d).map (fun _ => (k, v)) := by
  induction d with
  | nil => rfl
  | cons p rest ih =>
      rw [List.map_cons, List.find?_cons, List.find?_cons]
      by_cases hp : (p.1 == k) = true
      · rw [hp]
        simp
      · rw [Bool.not_eq_true] at hp
        simpa [hp] using ih

/-- An in-place dict update leaves lookups of other keys unchanged. -/
theorem find?_dset_map_other (d : Details) (k k' : String) (v : DVal) (h : k ≠ k') :
    List.find? (fun p => p.1 == k) (d.map (fun p => if p.1 == k' then (k', v) else p))
      = List.find? (fun p => p.1 == k) d := by
  induction d with
  | nil => rfl
  | cons p rest ih =>
      rw [List.map_cons, List.find?_cons, List.find?_cons]
      by_cases hp : (p.1 == k') = true
      · rw [hp]
        have hpk : (p.1 == k) = false := by
          rw [beq_iff_eq] at hp
          rw [beq_eq_false_iff_ne, hp]
          exact Ne.symm h
        rw [hpk]
        have hkk : ((k' : String) == k) = false := by
          rw [beq_eq_false_iff_ne]
          exact Ne.symm h
        simpa [hkk] using ih
      · rw [Bool.not_eq_true] at hp
        by_cases hpk : (p.1 == k) = true
        · simp [hp, hpk]
        · rw [Bool.not_eq_true] at hpk
          simpa [hp, hpk] using ih

/-- `d[k] = v` makes `d.get(k)` return `v`. -/
theorem dget_dset_self (d : Details) (k : String) (v : DVal) :
    dget (dset d k v) k = some v := by
  unfold dset dget
  split
  · rename_i hany
    rw [find?_dset_map_self]
    obtain ⟨x, hx, hpx⟩ := List.any_eq_true.mp hany
    cases hfind : List.find? (fun p => p.1 == k) d with
    | none => exact absurd hpx (List.find?_eq_none.mp hfind x hx)
    | some y => rfl
  · rename_i hany
    rw [List.find?_append]
    rw [Bool.not_eq_true] at hany
    have hnone : List.find? (fun p => p.1 == k) d = none := by
      rw [List.find?_eq_none]
      intro x hx
      exact List.any_eq_false.mp hany x hx
    rw [hnone]
    simp [List.find?]

/-- `d[k2] = v` does not change `d.get(k1)` for `k1 != k2`. -/
theorem dget_dset_other (d : Details) (k k' : String) (v : DVal) (h : k ≠ k') :
    dget (dset d k' v) k = dget d k := by
  unfold dset dget
  split
  · rw [find?_dset_map_other _ _ _ _ h]
  · rw [List.find?_append]
    have hsingle : List.find? (fun p => p.1 == k) [(k', v)] = none := by
      rw [List.find?_eq_none]
      intro x hx
      rw [List.mem_singleton.mp hx]
      simpa using Ne.symm h
    rw [hsingle]
    simp

/-- The summary written into the primary payload records the batched count
under `batchedUpdates` and the first three batched action names under
`otherActions`. -/
theorem summarize_lookups (primary : Update) (others : List Update) (h : others ≠ []) :
    dget (summarize primary others) "batchedUpdates" = some (.num (others.length : Int)) ∧
    dget (summarize primary others) "otherActions"
      = some (.strList ((others.take 3).map (fun u => u.action))) := by
  unfold summarize
  rw [if_neg (by simpa [List.isEmpty_iff] using h)]
  constructor
  · split
    · rw [dget_dset_other _ _ _ _ (by decide), dget_dset_other _ _ _ _ (by decide),
        dget_dset_self]
    · rw [dget_dset_other _ _ _ _ (by decide), dget_dset_self]
  · split
    · rw [dget_dset_other _ _ _ _ (by decide), dget_dset_self]
    · rw [dget_dset_self]

/-- `_update_stats` does not flush. -/
theorem update_stats_flush_count (st : Manager) (success : Bool) (now : ℚ) :
    (update_stats st success now).flush_count = st.flush_count := by
  unfold update_stats
  dsimp only
  split <;> rfl

/-- `_send_webhook_direct` appends exactly one payload to the post log,
keeps every `details` entry except a possible `bio`, and does not flush. -/
theorem send_webhook_direct_log (st : Manager) (action : String) (details : Details)
    (responses : List HttpOutcome) (now : ℚ) :
    ∃ p : Payload, (send_webhook_direct st action details responses now).2.http_log
        = st.http_log ++ [p] ∧
      p.action = action ∧
      (∀ k, k ≠ "bio" → dget p.details k = dget details k) ∧
      (send_webhook_direct st action details responses now).2.flush_count = st.flush_count := by
  unfold send_webhook_direct
  dsimp only
  rw [update_stats_http_log, update_stats_flush_count]
  refine ⟨_, rfl, rfl, ?_, rfl⟩
  intro k hk
  dsimp only
  split
  · exact dget_dset_other _ _ _ _ hk
  · rfl

end Webhook

namespace Webhook

/-- `_flush_batch` on a non-empty buffer performs one flush that issues one
post whose action is the sorted buffer's head and whose details summarize
the remaining updates. -/
theorem flush_batch_props (st : Manager) (now : ℚ) (responses : List HttpOutcome)
    (h : st.pending_updates ≠ []) :
    (flush_batch st now responses).flush_count = st.flush_count + 1 ∧
    ∃ p : Payload,
      (flush_batch st now responses).http_log = st.http_log ++ [p] ∧
      p.action = ((sortByPriority st.pending_updates).headD default).action ∧
      ((sortByPriority st.pending_updates).tail ≠ [] →
        dget p.details "batchedUpdates"
          = some (.num ((sortByPriority st.pending_updates).tail.length : Int)) ∧
        dget p.details "otherActions"
          = some (.strList (((sortByPriority st.pending_updates).tail.take 3).map
              (fun u => u.action)))) := by
  unfold flush_batch
  rw [if_neg (by simpa [List.isEmpty_iff] using h)]
  dsimp only
  obtain ⟨p, hlog, hact, hdet, hfc⟩ := send_webhook_direct_log
    (if (sortByPriority st.pending_updates).tail.isEmpty then st
     else { st with requests_saved :=
        st.requests_saved + (sortByPriority st.pending_updates).tail.length })
    ((sortByPriority st.pending_updates).headD default).action
    (summarize ((sortByPriority st.pending_updates).headD default)
      (sortByPriority st.pending_updates).tail)
    responses now
  rw [hlog, hfc]
  have hst1log : (if (sortByPriority st.pending_updates).tail.isEmpty then st
      else { st with requests_saved :=
        st.requests_saved + (sortByPriority st.pending_updates).tail.length }).http_log
      = st.http_log := by
    split <;> rfl
  have hst1fc : (if (sortByPriority st.pending_updates).tail.isEmpty then st
      else { st with requests_saved :=
        st.requests_saved + (sortByPriority st.pending_updates).tail.length }).flush_count
      = st.flush_count := by
    split <;> rfl
  rw [hst1log, hst1fc]
  refine ⟨rfl, p, rfl, hact, ?_⟩
  intro htail
  have hsum := summarize_lookups ((sortByPriority st.pending_updates).headD default)
    (sortByPriority st.pending_updates).tail htail
  constructor
  · rw [hdet "batchedUpdates" (by decide)]
    exact hsum.1
  · rw [hdet "otherActions" (by decide)]
    exact hsum.2

end Webhook

namespace Webhook

/-- Claim C4: enqueuing 7 non-critical `hold` events (max batch size 5)
followed by the batch timer firing yields exactly 2 flush operations, and
the first flush's payload records `batchedUpdates = 4`; moreover on every
flush of a non-empty buffer the pending events are sorted by descending
priority (a permutation of the buffer, with the head of maximal priority),
a single HTTP post carries the highest-priority event, and the rest are
summarized inside it as a count (`batchedUpdates`) plus up to 3 action
names (`otherActions`). -/
theorem batching_correctness :
    ((runBatch 0 [.status 200] {} sevenHoldEvents).flush_count = 2 ∧
     (runBatch 0 [.status 200] {} sevenHoldEvents).http_log.length = 2 ∧
     dget ((runBatch 0 [.status 200] {} sevenHoldEvents).http_log.headD default).details
       "batchedUpdates" = some (.num 4)) ∧
    (∀ (st : Manager) (now : ℚ) (responses : List HttpOutcome),
      st.pending_updates ≠ [] →
      (sortByPriority st.pending_updates).Pairwise (fun a b => b.priority ≤ a.priority) ∧
      (sortByPriority st.pending_updates).Perm st.pending_updates ∧
      (∀ u ∈ st.pending_updates,
        u.priority ≤ ((sortByPriority st.pending_updates).headD default).priority) ∧
      (flush_batch st now responses).flush_count = st.flush_count + 1 ∧
      ∃ p : Payload, (flush_batch st now responses).http_log = st.http_log ++ [p] ∧
        p.action = ((sortByPriority st.pending_updates).headD default).action ∧
        ((sortByPriority st.pending_updates).tail ≠ [] →
          dget p.details "batchedUpdates"
            = some (.num ((sortByPriority st.pending_updates).tail.length : Int)) ∧
          dget p.details "otherActions"
            = some (.strList (((sortByPriority st.pending_updates).tail.take 3).map
                (fun u => u.action))))) := by
  constructor
  · refine ⟨by decide, by decide, by decide⟩
  · intro st now responses h
    refine ⟨sortByPriority_sorted _, sortByPriority_perm _, ?_,
      (flush_batch_props st now responses h).1, (flush_batch_props st now responses h).2⟩
    intro u hu
    have hs := sortByPriority_sorted st.pending_updates
    have hu' : u ∈ sortByPriority st.pending_updates :=
      (sortByPriority_perm st.pending_updates).mem_iff.mpr hu
    cases hsor : sortByPriority st.pending_updates with
    | nil =>
        rw [hsor] at hu'
        exact absurd hu' (List.not_mem_nil u)
    | cons hd tl =>
        rw [hsor] at hu' hs
        simp only [List.headD_cons]
        rcases List.mem_cons.mp hu' with h1 | h1
        · rw [h1]
        · exact (List.pairwise_cons.mp hs).1 u h1

/-- Witness for `batching_correctness` at a singleton buffer. -/
theorem batching_correctness_witness :
    ({ pending_updates := [{ action := "hold", details := [], timestamp := 0, priority := 5 }] }
        : Manager).pending_updates ≠ [] ∧
    (sortByPriority ({ pending_updates :=
        [{ action := "hold", details := [], timestamp := 0, priority := 5 }] }
        : Manager).pending_updates).Pairwise (fun a b => b.priority ≤ a.priority) :=
  ⟨List.cons_ne_nil _ _,
   (batching_correctness.2
      { pending_updates := [{ action := "hold", details := [], timestamp := 0, priority := 5 }] }
      0 [.status 200] (List.cons_ne_nil _ _)).1⟩

end Webhook
namespace Webhook

/-- Closed form of the interval computed by a successful scheduled
heartbeat at idle time `d`: 60 below 5 idle minutes, 120 up to 10, 144 up
to 15, and 300 beyond. -/
theorem after_successful_heartbeat_eval (d : ℚ) :
    after_successful_heartbeat d =
      if d < 300 then 60 else if d ≤ 600 then 120 else if d < 900 then 144 else 300 := by
  unfold after_successful_heartbeat heartbeat_success_update bucket_interval
  split_ifs <;> first | rfl | linarith | norm_num

/-- `_should_skip_webhook` either leaves the state alone or only resets the
failure counter. -/
theorem should_skip_snd (st : Manager) (now : ℚ) :
    (should_skip_webhook st now).2 = st ∨
    (should_skip_webhook st now).2 = { st with consecutive_failures := 0 } := by
  unfold should_skip_webhook
  split
  · split
    · left
      rfl
    · right
      rfl
  · left
    rfl

/-- `_send_webhook_direct` does not touch the adaptive interval. -/
theorem swd_adaptive (st : Manager) (a : String) (d : Details) (r : List HttpOutcome) (n : ℚ) :
    (send_webhook_direct st a d r n).2.adaptive_heartbeat_interval
      = st.adaptive_heartbeat_interval := by
  unfold send_webhook_direct update_stats
  dsimp only
  split <;> rfl

/-- `_send_webhook_direct` does not touch the last-activity stamp. -/
theorem swd_lsa (st : Manager) (a : String) (d : Details) (r : List HttpOutcome) (n : ℚ) :
    (send_webhook_direct st a d r n).2.last_significant_activity
      = st.last_significant_activity := by
  unfold send_webhook_direct update_stats
  dsimp only
  split <;> rfl

/-- `_send_webhook_direct` does not touch the maximum interval. -/
theorem swd_max (st : Manager) (a : String) (d : Details) (r : List HttpOutcome) (n : ℚ) :
    (send_webhook_direct st a d r n).2.max_heartbeat_interval = st.max_heartbeat_interval := by
  unfold send_webhook_direct update_stats
  dsimp only
  split <;> rfl

/-- `_send_webhook_direct` does not touch the minimum interval. -/
theorem swd_min (st : Manager) (a : String) (d : Details) (r : List HttpOutcome) (n : ℚ) :
    (send_webhook_direct st a d r n).2.min_heartbeat_interval = st.min_heartbeat_interval := by
  unfold send_webhook_direct update_stats
  dsimp only
  split <;> rfl

/-- The boolean returned by `_send_webhook_direct` is the transport's
HTTP-200 verdict. -/
theorem swd_fst (st : Manager) (a : String) (d : Details) (r : List HttpOutcome) (n : ℚ) :
    (send_webhook_direct st a d r n).1 = (send_webhook_request r).1 := rfl

/-- Claim C8 is false on the code as stated: with the interval computed at
its minimum (idle time 0 buckets to 60 seconds), a failed heartbeat leaves
the interval at `max(0.8 * 60, 60) = 60` — it does not strictly decrease. -/
theorem heartbeat_failure_counterexample :
    bucket_interval 0 = 60 ∧
    heartbeat_failure_update (bucket_interval 0) = 60 ∧
    ¬ heartbeat_failure_update (bucket_interval 0) < bucket_interval 0 := by
  refine ⟨by norm_num [bucket_interval], by norm_num [bucket_interval, heartbeat_failure_update], ?_⟩
  norm_num [bucket_interval, heartbeat_failure_update]

end Webhook

namespace Webhook

/-- The skip decision ignores the adaptive interval field. -/
theorem should_skip_fst_congr (st : Manager) (x now : ℚ) :
    (should_skip_webhook { st with adaptive_heartbeat_interval := x } now).1
      = (should_skip_webhook st now).1 := by
  unfold should_skip_webhook
  split_ifs <;> rfl

/-- Claim C8, amended: over successful heartbeats with no intervening
activity the computed adaptive interval is non-decreasing in the idle time
and bounded by the 300-second maximum; a failed heartbeat strictly
decreases the interval whenever it is above the 60-second minimum and
leaves it at 60 otherwise; and, bridging to the scheduler embedding, a
fired `scheduler_tick` at the default configuration computes exactly
`after_successful_heartbeat idle` on success and
`heartbeat_failure_update (bucket_interval idle)` on failure. -/
theorem adaptive_heartbeat_monotone :
    (∀ d₁ d₂ : ℚ, d₁ ≤ d₂ →
      after_successful_heartbeat d₁ ≤ after_successful_heartbeat d₂) ∧
    (∀ d : ℚ, after_successful_heartbeat d ≤ 300) ∧
    (∀ i : ℚ, 60 < i → heartbeat_failure_update i < i) ∧
    heartbeat_failure_update 60 = 60 ∧
    (∀ (st : Manager) (now : ℚ) (sm : Details) (responses : List HttpOutcome),
      st.min_heartbeat_interval = 60 → st.heartbeat_interval = 120 →
      st.max_heartbeat_interval = 300 →
      (should_skip_webhook st now).1 = false →
      now - st.last_heartbeat_sent ≥ bucket_interval (now - st.last_significant_activity) →
      ((send_webhook_request responses).1 = true →
        (scheduler_tick st now sm responses).adaptive_heartbeat_interval
          = after_successful_heartbeat (now - st.last_significant_activity)) ∧
      ((send_webhook_request responses).1 = false →
        (scheduler_tick st now sm responses).adaptive_heartbeat_interval
          = heartbeat_failure_update (bucket_interval (now - st.last_significant_activity)))) := by
  refine ⟨?_, ?_, ?_, ?_, ?_⟩
  · intro d₁ d₂ h
    rw [after_successful_heartbeat_eval, after_successful_heartbeat_eval]
    split_ifs <;> first | rfl | linarith
  · intro d
    rw [after_successful_heartbeat_eval]
    split_ifs <;> norm_num
  · intro i hi
    unfold heartbeat_failure_update
    rw [max_lt_iff]
    constructor
    · linarith
    · exact hi
  · norm_num [heartbeat_failure_update]
  · intro st now sm responses hmin hbase hmax hskip hfire
    unfold scheduler_tick
    dsimp only
    have hint : (if now - st.last_significant_activity < 300 then st.min_heartbeat_interval
        else if now - st.last_significant_activity < 900 then st.heartbeat_interval
        else st.max_heartbeat_interval)
        = bucket_interval (now - st.last_significant_activity) := by
      rw [hmin, hbase, hmax]
      rfl
    rw [hint, if_pos hfire]
    unfold send_scheduled_heartbeat
    try dsimp only
    have hskip1 : (should_skip_webhook { st with adaptive_heartbeat_interval := (bucket_interval (now - st.last_significant_activity)) } now).1 = false := by
      rw [should_skip_fst_congr]
      exact hskip
    rw [hskip1, if_neg Bool.false_ne_true]
    try dsimp only
    rw [swd_fst]
    constructor
    · intro hsucc
      rw [if_pos hsucc]
      try dsimp only
      rw [swd_lsa, swd_adaptive, swd_max]
      rcases should_skip_snd { st with adaptive_heartbeat_interval := (bucket_interval (now - st.last_significant_activity)) } now with hc | hc <;>
        rw [hc] <;>
        · try dsimp only
          rw [hmax]
          rw [apply_ite Manager.adaptive_heartbeat_interval]
          try dsimp only
          unfold after_successful_heartbeat heartbeat_success_update
          rfl
    · intro hfail
      rw [if_neg (by simp [hfail])]
      try dsimp only
      rw [swd_adaptive, swd_min]
      rcases should_skip_snd { st with adaptive_heartbeat_interval := (bucket_interval (now - st.last_significant_activity)) } now with hc | hc <;>
        rw [hc] <;>
        · try dsimp only
          rw [hmin]
          unfold heartbeat_failure_update
          rfl
end Webhook

namespace Webhook

/-- Witness for `adaptive_heartbeat_monotone` at concrete inputs: idle 0,
failure at interval 120, and a fired successful tick at instant 1000 on a
default notifier. -/
theorem adaptive_heartbeat_monotone_witness :
    ((0:ℚ) ≤ 0 ∧ after_successful_heartbeat 0 ≤ after_successful_heartbeat 0) ∧
    ((60:ℚ) < 120 ∧ heartbeat_failure_update 120 < 120) ∧
    (({} : Manager).min_heartbeat_interval = 60 ∧
     (should_skip_webhook ({} : Manager) 1000).1 = false ∧
     (1000 : ℚ) - ({} : Manager).last_heartbeat_sent
        ≥ bucket_interval (1000 - ({} : Manager).last_significant_activity) ∧
     (scheduler_tick ({} : Manager) 1000 [] [.status 200]).adaptive_heartbeat_interval
        = after_successful_heartbeat (1000 - ({} : Manager).last_significant_activity)) := by
  refine ⟨⟨le_refl 0, adaptive_heartbeat_monotone.1 0 0 (le_refl 0)⟩,
    ⟨by norm_num, adaptive_heartbeat_monotone.2.2.1 120 (by norm_num)⟩,
    rfl, rfl, ?_, ?_⟩
  · show (1000 : ℚ) - 0 ≥ bucket_interval (1000 - 0)
    norm_num [bucket_interval]
  · exact (adaptive_heartbeat_monotone.2.2.2.2 {} 1000 [] [.status 200] rfl rfl rfl rfl
      (by show (1000 : ℚ) - 0 ≥ bucket_interval (1000 - 0); norm_num [bucket_interval])).1 rfl

end Webhook
